import Mathlib

/-!
# Verification of the OAuth broker core of the Spotify MCP server

Shallow embedding of the broker endpoints implemented in
`src/services/auth/auth_services.py`, the JWT layer of `src/common/token.py`,
the request/response models of `src/models/dto/auth_models.py`, the route
declarations of `src/routes/auth/auth_routes.py` and the constants of
`src/core/config.py`.  Python dictionaries are modelled as association lists
with Python `dict` semantics (unique keys; `d[k] = v`, `del d[k]`,
`d.pop(k, None)`, `d.get(k)`), `raise` is modelled as an error value that also
carries the final contents of the mutated stores, and the wall clock, the
`secrets` module and the upstream HTTP exchange are passed in explicitly.
-/

namespace SpotifyBroker

instance {ε α : Type} [DecidableEq ε] [DecidableEq α] :
    DecidableEq (Except ε α) :=
  fun x y =>
    match x, y with
    | .ok a, .ok b =>
        match decEq a b with
        | isTrue h => isTrue (by rw [h])
        | isFalse h => isFalse (by intro hc; cases hc; exact h rfl)
    | .error a, .error b =>
        match decEq a b with
        | isTrue h => isTrue (by rw [h])
        | isFalse h => isFalse (by intro hc; cases hc; exact h rfl)
    | .ok _, .error _ => isFalse (by intro hc; cases hc)
    | .error _, .ok _ => isFalse (by intro hc; cases hc)

/-! ## Association lists with Python dict semantics -/

/-- `d.get(k)` on a Python dict: the value stored under `k`, if any. -/
def findA {β : Type} (k : String) : List (String × β) → Option β
  | [] => none
  | (k', v) :: m => if k' = k then some v else findA k m

/-- `del d[k]` on a Python dict: remove the binding of `k` (keys are unique,
so removing every pair with key `k` is extensionally the same). -/
def eraseA {β : Type} (k : String) : List (String × β) → List (String × β)
  | [] => []
  | p :: m => if p.1 = k then eraseA k m else p :: eraseA k m

/-- `d[k] = v` on a Python dict: bind `k` to `v`, replacing any old binding. -/
def insertA {β : Type} (k : String) (v : β) (m : List (String × β)) :
    List (String × β) :=
  (k, v) :: eraseA k m

theorem findA_eraseA_self {β : Type} (k : String) (m : List (String × β)) :
    findA k (eraseA k m) = none := by
  induction m with
  | nil => rfl
  | cons p m ih =>
    by_cases h : p.1 = k
    · simpa [eraseA, h] using ih
    · simpa [eraseA, findA, h] using ih

theorem findA_eraseA_ne {β : Type} {k k' : String} (m : List (String × β))
    (h : k' ≠ k) : findA k (eraseA k' m) = findA k m := by
  induction m with
  | nil => rfl
  | cons p m ih =>
    by_cases hp : p.1 = k'
    · simpa [eraseA, hp, findA, h] using ih
    · simp only [eraseA, hp, if_false, findA]
      split
      · rfl
      · exact ih

theorem findA_insertA_self {β : Type} (k : String) (v : β)
    (m : List (String × β)) : findA k (insertA k v m) = some v := by
  simp [insertA, findA]

theorem findA_insertA_ne {β : Type} {k k' : String} (v : β)
    (m : List (String × β)) (h : k ≠ k') :
    findA k' (insertA k v m) = findA k' (eraseA k m) := by
  simp [insertA, findA, h]

/-! ## Configuration constants (`src/core/config.py`, default values) -/

def SUPPORTED_SCOPES : List String :=
  ["user-read-private", "user-read-email", "user-read-playback-state",
   "user-modify-playback-state", "playlist-read-private",
   "playlist-read-collaborative", "playlist-modify-public",
   "playlist-modify-private", "user-library-read", "user-library-modify",
   "user-read-currently-playing", "user-read-playback-position"]

def RESPONSE_TYPES_SUPPORTED : List String := ["code"]

def GRANT_TYPES_SUPPORTED : List String := ["authorization_code", "refresh_token"]

def CODE_CHALLENGE_METHODS_SUPPORTED : List String := ["S256"]

def AUTH_REQUEST_TTL : Nat := 300

def JWT_ACCESS_TTL : Nat := 3600

def JWT_REFRESH_TTL : Nat := 31536000

/-- `settings.JWT_ISSUER` (= `BASE_URL` built from the default
protocol/host/port of `src/core/config.py`). No property below depends on the
concrete value, only on it being one fixed string. -/
def JWT_ISSUER : String := "http://127.0.0.1:8000"

/-! ## JWT layer (`src/common/token.py`) -/

/-- A JSON claim value as used by the broker (strings and integer timestamps). -/
inductive CVal : Type
  | str (s : String)
  | num (n : Nat)
  deriving DecidableEq

/-- A token signed with the broker's `JWT_SECRET`.  Signing itself is
cryptographic and is abstracted: a `Jwt` value stands for a string carrying a
valid signature over exactly `claims`; strings that fail signature or parsing
are represented separately at the call sites that accept raw token strings. -/
structure Jwt : Type where
  claims : List (String × CVal)
  deriving DecidableEq

/-- `JWTService._encode_token`: the claim set is
`{**payload, "iss": ISSUER, "iat": now, "exp": now + ttl, "typ": token_type}`
(Python dict-literal merge: the four fixed claims overwrite payload keys). -/
def encodeToken (payload : List (String × CVal)) (token_type : String)
    (ttl_seconds : Nat) (now : Nat) : List (String × CVal) :=
  let fixed : List (String × CVal) :=
    [("iss", CVal.str JWT_ISSUER), ("iat", CVal.num now),
     ("exp", CVal.num (now + ttl_seconds)), ("typ", CVal.str token_type)]
  payload.filter (fun p => (findA p.1 fixed).isNone) ++ fixed

/-- `JWTService._decode_token` on a validly signed token: `jwt.decode` with
`issuer=ISSUER` and `options={"require": ["exp", "iat", "typ"]}` demands the
three claims, checks `iss = ISSUER`, and rejects expired tokens
(PyJWT: expired iff `exp <= now`); then the service checks
`claims.get("typ") == expected_type`.  Any failure raises, modelled as `none`. -/
def decodeToken (j : Jwt) (expected_type : String) (now : Nat) :
    Option (List (String × CVal)) :=
  match findA "exp" j.claims with
  | some (CVal.num e) =>
      match findA "iat" j.claims, findA "typ" j.claims with
      | some _, some tv =>
          if findA "iss" j.claims = some (CVal.str JWT_ISSUER) then
            if now < e then
              if tv = CVal.str expected_type then some j.claims else none
            else none
          else none
      | _, _ => none
  | _ => none

/-- `generate_access_token` / `generate_refresh_token` both call
`_encode_token` with payload `{"token_id": tid}` at every broker mint site. -/
def mintToken (tid : String) (token_type : String) (ttl_seconds : Nat)
    (now : Nat) : Jwt :=
  Jwt.mk (encodeToken [("token_id", CVal.str tid)] token_type ttl_seconds now)

theorem mintToken_claims (tid token_type : String) (ttl now : Nat) :
    (mintToken tid token_type ttl now).claims =
      [("token_id", CVal.str tid), ("iss", CVal.str JWT_ISSUER),
       ("iat", CVal.num now), ("exp", CVal.num (now + ttl)),
       ("typ", CVal.str token_type)] := by
  rfl

theorem decodeToken_mintToken (tid token_type : String) (ttl now now₂ : Nat)
    (h : now₂ < now + ttl) :
    decodeToken (mintToken tid token_type ttl now) token_type now₂ =
      some (mintToken tid token_type ttl now).claims := by
  simp [decodeToken, mintToken, encodeToken, findA, h]

/-! ## Data model (`auth_services.py` in-memory stores) -/

/-- One value of `CLIENTS[client_id]` as written by `register_client`
(lines 109-118 of `auth_services.py`). -/
structure Client : Type where
  client_id : String
  client_id_issued_at : Nat
  client_name : String
  redirect_uris : List String
  grant_types : List String
  response_types : List String
  token_endpoint_auth_method : String
  scope : Option String
  deriving DecidableEq

/-- One value of `AUTH_REQUESTS[auth_id]` as written by `authorize`
(lines 201-211): the broker-side PKCE verifier `code_verifier` is added right
after creation, and the upstream `code` key only appears once the Spotify
callback has run (modelled as an `Option`). -/
structure AuthRequest : Type where
  client_id : String
  redirect_uri : String
  original_state : String
  original_code_challenge : String
  original_scope : String
  expires_at : Nat
  code_verifier : String
  code : Option String
  deriving DecidableEq

/-- One value of `SPOTIFY_TOKENS[token_id]` (lines 358-363 and 431-436):
the upstream Spotify credentials behind an internal `token_id`. -/
structure TokenRecord : Type where
  client_id : String
  access_token : String
  refresh_token : String
  scope : String
  deriving DecidableEq

abbrev ClientStore : Type := List (String × Client)

abbrev AuthStore : Type := List (String × AuthRequest)

abbrev TokenStore : Type := List (String × TokenRecord)

/-- The JSON body of a successful Spotify token response: the fields the
broker reads (`access_token`, `refresh_token` via `[]`, `expires_in` via
`.get`; Spotify's token endpoint always includes all three on success). -/
structure UpstreamTokens : Type where
  access_token : String
  refresh_token : String
  expires_in : Nat
  deriving DecidableEq

/-- Outcome of one `httpx` POST to `SPOTIFY_TOKEN_URL`: an HTTP response with
a status code and (for 200) the parsed body, or a raised transport exception. -/
inductive UpstreamOutcome : Type
  | resp (status : Nat) (body : UpstreamTokens)
  | exn
  deriving DecidableEq

/-- A failure raised out of a broker endpoint: an `OAuthException`
(error code plus description, rendered by the handler in
`src/common/exceptions.py` as `{"error", "error_description"}`), or an
uncaught Python exception (rendered as a bare HTTP 500). -/
inductive OErr : Type
  | oauth (error : String) (description : String)
  | pyExn (kind : String)
  deriving DecidableEq

/-- The nondeterministic inputs of one token-endpoint call: the wall clock,
the upstream exchange outcome, and the `secrets.token_urlsafe(16)` draw used
as the freshly minted `token_id`. -/
structure GrantCtx : Type where
  now : Nat
  upstream : UpstreamOutcome
  token_id : String
  deriving DecidableEq

/-- A JSON value appearing in a broker response body. -/
inductive BVal : Type
  | str (s : String)
  | num (n : Nat)
  | tok (j : Jwt)
  deriving DecidableEq

/-- A JSON object, in insertion order (the dicts returned by the grants). -/
abbrev JDict : Type := List (String × BVal)

/-! ## Upstream constants (`src/core/config.py` defaults) -/

def SPOTIFY_AUTH_URL : String := "https://accounts.spotify.com/authorize"

/-- `settings.SPOTIFY_CLIENT_ID` comes from the environment; the properties
below depend only on it being one fixed string. -/
def SPOTIFY_CLIENT_ID : String := "spotify-client-id"

def SPOTIFY_REDIRECT_URI : String := JWT_ISSUER ++ "/callback/spotify"

/-! ## Python scope-string helpers -/

/-- Helper for `str.split()`: accumulate the current word (reversed) while
scanning the character list. -/
def pyWordsAux : List Char → List Char → List String
  | [], acc => if acc.isEmpty then [] else [String.mk acc.reverse]
  | c :: cs, acc =>
      if c = ' ' then
        (if acc.isEmpty then pyWordsAux cs [] else
          String.mk acc.reverse :: pyWordsAux cs [])
      else pyWordsAux cs (c :: acc)

/-- `scope.split()`: the space-separated words of the scope string, empty
pieces dropped (the broker's scope strings are space-delimited). -/
def pyWords (s : String) : List String := pyWordsAux s.data []

/-- Duplicate removal keeping the first occurrence of each element. -/
def dedupKeep : List String → List String
  | [] => []
  | x :: xs => x :: (dedupKeep xs).filter (fun y => y != x)

/-- `' '.join(set(ws))`: CPython set iteration order is unspecified; this
model removes duplicates and fixes first-occurrence order.  Every property
proved below is either insensitive to the chosen order (it speaks about the
word set) or is evaluated on inputs with a single distinct scope, where all
orders agree. -/
def pySetJoin (ws : List String) : String :=
  String.intercalate " " (dedupKeep ws)

/-! ## Client registration (`register_client`, lines 65-129) -/

/-- `ClientRegistrationRequest` (`auth_models.py` lines 34-38): the model
declares exactly these four fields.  Its `field_validator`s additionally
reject unsupported `grant_types`/`response_types` at construction time; a
value of this structure stands for a successfully constructed model, but the
service-level checks are still embedded below exactly as written. -/
structure ClientRegistrationRequest : Type where
  client_name : String
  redirect_uris : List String
  grant_types : List String
  response_types : List String
  deriving DecidableEq

/-- `register_client` (lines 65-129).  The first three checks read fields
that exist on `ClientRegistrationRequest`.  Line 90 then evaluates
`payload.token_endpoint_auth_method`; the pydantic model declares no such
field (and no `scope` field either, read at line 97), and a pydantic v2
`BaseModel` raises `AttributeError` on access to an undeclared attribute, so
every payload that passes the first three checks raises `AttributeError`
(an unhandled exception, HTTP 500) and lines 90-129 — the auth-method check,
the scope check, `client_id` generation, the write to `CLIENTS` and the
return — are unreachable.  The registry is returned unchanged on every path. -/
def registerClient (clients : ClientStore)
    (payload : ClientRegistrationRequest) : Except OErr JDict × ClientStore :=
  if payload.redirect_uris = [] then
    (.error (.oauth "invalid_client_metadata"
        "Missing required field: redirect_uris"), clients)
  else if payload.grant_types.any (fun g => !GRANT_TYPES_SUPPORTED.contains g) then
    (.error (.oauth "unsupported_grant_type"
        ("Unsupported grant_type(s) requested: " ++ String.intercalate ", "
          ((payload.grant_types.filter
            (fun g => !GRANT_TYPES_SUPPORTED.contains g)) |> dedupKeep))), clients)
  else if payload.response_types.any
      (fun r => !RESPONSE_TYPES_SUPPORTED.contains r) then
    (.error (.oauth "unsupported_response_type"
        ("Unsupported response_type(s) requested: " ++ String.intercalate ", "
          ((payload.response_types.filter
            (fun r => !RESPONSE_TYPES_SUPPORTED.contains r)) |> dedupKeep))), clients)
  else
    (.error (.pyExn
      "AttributeError: ClientRegistrationRequest has no field token_endpoint_auth_method"),
     clients)

/-! ## Authorization endpoint (`authorize`, lines 137-225) -/

/-- An HTTP redirect: `RedirectResponse(base + "?" + urlencode(params))`,
with `urlencode` iterating the params dict in insertion order. -/
structure Redirect : Type where
  base : String
  params : List (String × String)
  deriving DecidableEq

/-- Nondeterministic inputs of one `authorize` call: the wall clock, the
`secrets.token_urlsafe(32)` draw used as `auth_id`, and the broker-side
PKCE pair from `generate_pkce_pair()` (a primitive imported from
`src.common.security`, not part of the snapshot; only the pair's values
matter to the stored state and the redirect). -/
structure AuthorizeCtx : Type where
  now : Nat
  auth_id : String
  broker_code_verifier : String
  broker_code_challenge : String
  deriving DecidableEq

/-- `authorize` (lines 137-225), validation in source order, then creation of
the `AUTH_REQUESTS[auth_id]` entry and the redirect to Spotify built with the
broker's upstream credentials, the broker's own PKCE challenge and
`state = auth_id`. -/
def authorize (ctx : AuthorizeCtx) (clients : ClientStore) (astore : AuthStore)
    (response_type client_id redirect_uri scope state code_challenge
     code_challenge_method : String) : Except OErr Redirect × AuthStore :=
  if response_type ∉ RESPONSE_TYPES_SUPPORTED then
    (.error (.oauth "unsupported_response_type"
        ("Unsupported response_type: " ++ response_type)), astore)
  else
    match findA client_id clients with
    | none =>
        (.error (.oauth "invalid_client" ("Invalid client_id: " ++ client_id)),
         astore)
    | some client =>
        if redirect_uri ∉ client.redirect_uris then
          (.error (.oauth "invalid_redirect_uri"
              ("redirect_uri not registered: " ++ redirect_uri)), astore)
        else if code_challenge = "" then
          (.error (.oauth "invalid_request" "Missing code_challenge"), astore)
        else if code_challenge_method ∉ CODE_CHALLENGE_METHODS_SUPPORTED then
          (.error (.oauth "invalid_request"
              ("Invalid code_challenge_method: " ++ code_challenge_method)),
           astore)
        else if scope = "" then
          (.error (.oauth "invalid_scope" "Missing scope in request"), astore)
        else if (pyWords scope).any (fun sc => !SUPPORTED_SCOPES.contains sc) then
          (.error (.oauth "invalid_scope"
              ("Unsupported scope(s) requested: " ++ String.intercalate ", "
                (((pyWords scope).filter
                  (fun sc => !SUPPORTED_SCOPES.contains sc)) |> dedupKeep))), astore)
        else
          let requested_scopes_str := pySetJoin (pyWords scope)
          let auth_req : AuthRequest :=
            { client_id := client_id
              redirect_uri := redirect_uri
              original_state := state
              original_code_challenge := code_challenge
              original_scope := requested_scopes_str
              expires_at := ctx.now + AUTH_REQUEST_TTL
              code_verifier := ctx.broker_code_verifier
              code := none }
          (.ok { base := SPOTIFY_AUTH_URL
                 params := [("client_id", SPOTIFY_CLIENT_ID),
                            ("response_type", "code"),
                            ("redirect_uri", SPOTIFY_REDIRECT_URI),
                            ("scope", requested_scopes_str),
                            ("state", ctx.auth_id),
                            ("code_challenge", ctx.broker_code_challenge),
                            ("code_challenge_method", code_challenge_method)] },
           insertA ctx.auth_id auth_req astore)

/-! ## Spotify callback (`spotify_callback`, lines 233-259) -/

/-- `spotify_callback(code, state)`: look `state` up in `AUTH_REQUESTS`
(missing entry fails `invalid_request`; an entry past `expires_at` is deleted
and fails `invalid_request`), record the upstream `code` into the stored
request, and redirect to the stored client `redirect_uri` with
`code = state` (the broker's `auth_id`) and, when the stored
`original_state` is non-empty (Python truthiness), `state = original_state`.
No upstream exchange is performed: the function takes no upstream outcome. -/
def spotifyCallback (now : Nat) (astore : AuthStore) (code state : String) :
    Except OErr Redirect × AuthStore :=
  match findA state astore with
  | none =>
      (.error (.oauth "invalid_request"
          "Invalid or expired authorization request"), astore)
  | some auth =>
      if auth.expires_at < now then
        (.error (.oauth "invalid_request" "Authorization request has expired"),
         eraseA state astore)
      else
        (.ok { base := auth.redirect_uri
               params := ("code", state) ::
                 (if auth.original_state ≠ "" then
                   [("state", auth.original_state)] else []) },
         insertA state { auth with code := some code } astore)

/-! ## Token endpoint (`issue_token`, `_code_grant`, `_refresh_grant`) -/

/-- `_code_grant` (lines 303-371).  `verify_pkce` is imported from
`src.common.security`, a module absent from the snapshot, so the grant is
parametric in `verify`; the call at line 323 applies it to the presented
`code_verifier` and the stored client challenge
`auth_req['original_code_challenge']`.  The result carries the final
contents of both mutated stores even when an exception is raised, because
`AUTH_REQUESTS.pop` at line 310 mutates before any later `raise`.  When the
callback never stored an upstream code, `auth_req['code']` raises `KeyError`
inside the `try` of lines 329-343, which the bare `except` converts to the
same `server_error` as an upstream failure. -/
def codeGrant (verify : String → String → Bool) (ctx : GrantCtx)
    (astore : AuthStore) (tstore : TokenStore) (client_id : String)
    (code redirect_uri code_verifier : String) :
    Except OErr JDict × AuthStore × TokenStore :=
  if code = "" ∨ redirect_uri = "" ∨ code_verifier = "" then
    (.error (.oauth "invalid_request"
        "Missing required fields: code, redirect_uri, or code_verifier"),
     astore, tstore)
  else
    match findA code astore with
    | none =>
        (.error (.oauth "invalid_grant"
            "Invalid or expired authorization request"), astore, tstore)
    | some auth_req =>
        let astore' := eraseA code astore
        if redirect_uri ≠ auth_req.redirect_uri then
          (.error (.oauth "invalid_request"
              ("redirect_uri mismatch: " ++ redirect_uri)), astore', tstore)
        else if verify code_verifier auth_req.original_code_challenge = false then
          (.error (.oauth "pkce_failed" "code challenge mismatch"),
           astore', tstore)
        else
          match auth_req.code, ctx.upstream with
          | none, _ =>
              (.error (.oauth "server_error" "Spotify token retrival failed"),
               astore', tstore)
          | some _, .exn =>
              (.error (.oauth "server_error" "Spotify token retrival failed"),
               astore', tstore)
          | some _, .resp status body =>
              if status ≠ 200 then
                (.error (.oauth "server_error" "Spotify token retrival failed"),
                 astore', tstore)
              else
                (.ok [("access_token",
                        .tok (mintToken ctx.token_id "access" body.expires_in ctx.now)),
                      ("refresh_token",
                        .tok (mintToken ctx.token_id "refresh" JWT_REFRESH_TTL ctx.now)),
                      ("token_type", .str "bearer"),
                      ("expires_in", .num body.expires_in),
                      ("scope", .str auth_req.original_scope)],
                 astore',
                 insertA ctx.token_id
                   { client_id := client_id
                     access_token := body.access_token
                     refresh_token := body.refresh_token
                     scope := auth_req.original_scope } tstore)

/-- The `refresh_token` form field as `_refresh_grant` receives it:
absent or empty (Python falsy), a string that fails `jwt.decode` (bad
signature or unparseable), or a validly signed token. -/
inductive RefreshTokenInput : Type
  | missing
  | malformed
  | signed (j : Jwt)
  deriving DecidableEq

/-- `_refresh_grant` (lines 374-444).  Verification failures of any kind
(including expiry and type mismatch, all raised by `verify_refresh_token`
and caught by the bare `except`) give `invalid_grant`; a missing record for
the extracted `token_id` gives `invalid_grant`; an owner mismatch gives
`invalid_client`.  The upstream `httpx` call is *not* wrapped in `try` here,
so a transport exception propagates as an unhandled Python exception, while
a non-200 response raises `server_error`.  Only after a 200 response is the
old record deleted and the new one inserted under the fresh `token_id`. -/
def refreshGrant (ctx : GrantCtx) (tstore : TokenStore) (client_id : String)
    (rt : RefreshTokenInput) : Except OErr JDict × TokenStore :=
  match rt with
  | .missing =>
      (.error (.oauth "invalid_request" "Missing refresh_token"), tstore)
  | .malformed =>
      (.error (.oauth "invalid_grant" "Invalid refresh_token format"), tstore)
  | .signed j =>
      match decodeToken j "refresh" ctx.now with
      | none =>
          (.error (.oauth "invalid_grant" "Invalid refresh_token format"),
           tstore)
      | some token_data =>
          match findA "token_id" token_data with
          | none => (.error (.pyExn "KeyError: token_id"), tstore)
          | some (CVal.num _) =>
              (.error (.oauth "invalid_grant"
                  "Refresh token not found or expired"), tstore)
          | some (CVal.str token_id) =>
              match findA token_id tstore with
              | none =>
                  (.error (.oauth "invalid_grant"
                      "Refresh token not found or expired"), tstore)
              | some stored_tokens =>
                  if client_id ≠ stored_tokens.client_id then
                    (.error (.oauth "invalid_client"
                        "refresh_token does not belong to this client"),
                     tstore)
                  else
                    match ctx.upstream with
                    | .exn => (.error (.pyExn "httpx transport error"), tstore)
                    | .resp status body =>
                        if status ≠ 200 then
                          (.error (.oauth "server_error"
                              "Spotify refresh token exchange failed"), tstore)
                        else
                          (.ok [("access_token",
                                  .tok (mintToken ctx.token_id "access"
                                    body.expires_in ctx.now)),
                                ("token_type", .str "bearer"),
                                ("expires_in", .num body.expires_in),
                                ("refresh_token",
                                  .tok (mintToken ctx.token_id "refresh"
                                    JWT_REFRESH_TTL ctx.now)),
                                ("scope", .str stored_tokens.scope)],
                           insertA ctx.token_id
                             { client_id := client_id
                               access_token := body.access_token
                               refresh_token := body.refresh_token
                               scope := stored_tokens.scope }
                             (eraseA token_id tstore))

/-- `issue_token` (lines 267-300): validate `grant_type`, validate the
client exists, dispatch to the grant handlers. -/
def issueToken (ctx : GrantCtx) (clients : ClientStore) (astore : AuthStore)
    (tstore : TokenStore) (verify : String → String → Bool)
    (grant_type client_id code redirect_uri code_verifier : String)
    (rt : RefreshTokenInput) : Except OErr JDict × AuthStore × TokenStore :=
  if grant_type ∉ GRANT_TYPES_SUPPORTED then
    (.error (.oauth "unsupported_grant_type"
        ("Invalid grant_type: " ++ grant_type)), astore, tstore)
  else
    match findA client_id clients with
    | none =>
        (.error (.oauth "invalid_client" ("Unknown client_id: " ++ client_id)),
         astore, tstore)
    | some _ =>
        if grant_type = "authorization_code" then
          codeGrant verify ctx astore tstore client_id code redirect_uri
            code_verifier
        else
          match refreshGrant ctx tstore client_id rt with
          | (r, tstore') => (r, astore, tstore')

/-- The serialization the `/token` route *declares*:
`response_model=TokenResponse` (`auth_routes.py` line 95) makes FastAPI build
a `TokenResponse` from a returned dict, the HTTP body carrying exactly the
model's fields (`auth_models.py` lines 69-74: `access_token`, `token_type`
defaulting to "bearer", `expires_in`, `scope`; keys absent from the model,
such as `refresh_token`, dropped; a missing required field a
response-validation error, modelled as `none`).  It is used only inside
`tokenRoute` below, on a branch that is provably unreachable because the
route's call to the service never binds. -/
def tokenResponseBody (d : JDict) : Option JDict :=
  match findA "access_token" d, findA "expires_in" d, findA "scope" d with
  | some a, some e, some s =>
      some [("access_token", a),
            ("token_type", (findA "token_type" d).getD (BVal.str "bearer")),
            ("expires_in", e), ("scope", s)]
  | _, _, _ => none

/-! ## Concrete demonstration data for witnesses and counterexamples -/

/-- A registered client as `register_client` was intended to store it. -/
def demoClient : Client :=
  { client_id := "abc123"
    client_id_issued_at := 17000
    client_name := "Demo App"
    redirect_uris := ["https://app.example/cb"]
    grant_types := ["authorization_code", "refresh_token"]
    response_types := ["code"]
    token_endpoint_auth_method := "none"
    scope := none }

def demoClients : ClientStore := [("abc123", demoClient)]

/-- An in-flight authorization request after the Spotify callback ran. -/
def demoAuthReq : AuthRequest :=
  { client_id := "abc123"
    redirect_uri := "https://app.example/cb"
    original_state := "xyz"
    original_code_challenge := "CLIENTCHALLENGE"
    original_scope := "user-read-email"
    expires_at := 1000
    code_verifier := "BROKERVERIFIER"
    code := some "UPSTREAMCODE" }

def demoUpstream : UpstreamTokens :=
  { access_token := "spotify-access"
    refresh_token := "spotify-refresh"
    expires_in := 3600 }

def demoCtx : GrantCtx :=
  { now := 500, upstream := .resp 200 demoUpstream, token_id := "tid-1" }

/-- A PKCE verifier that accepts everything, for exercising success paths. -/
def acceptPkce : String → String → Bool := fun _ _ => true

/-- A PKCE verifier that rejects everything, for exercising the mismatch path. -/
def rejectPkce : String → String → Bool := fun _ _ => false

/-! ## Helper lemmas -/

/-- A code absent from the Authorization Request Store fails `invalid_grant`
with both stores untouched (the `pop` default leaves the dict unchanged). -/
theorem codeGrant_absent (verify : String → String → Bool) (ctx : GrantCtx)
    (astore : AuthStore) (tstore : TokenStore)
    (client_id code redirect_uri code_verifier : String)
    (hc : code ≠ "") (hr : redirect_uri ≠ "") (hv : code_verifier ≠ "")
    (hfind : findA code astore = none) :
    codeGrant verify ctx astore tstore client_id code redirect_uri
      code_verifier =
    (.error (.oauth "invalid_grant" "Invalid or expired authorization request"),
     astore, tstore) := by
  unfold codeGrant
  rw [if_neg (by simp [hc, hr, hv]), hfind]

/-- Inversion of a successful authorization_code grant: the code was stored,
the upstream exchange returned 200, the redirect URI matched, the PKCE check
passed, and the response dict, the consumed request store and the extended
token store are exactly as built at lines 358-371. -/
theorem codeGrant_ok (verify : String → String → Bool) (ctx : GrantCtx)
    (astore : AuthStore) (tstore : TokenStore)
    (client_id code redirect_uri code_verifier : String)
    (d : JDict) (astore' : AuthStore) (tstore' : TokenStore)
    (h : codeGrant verify ctx astore tstore client_id code redirect_uri
      code_verifier = (.ok d, astore', tstore')) :
    ∃ aq body,
      findA code astore = some aq ∧
      ctx.upstream = .resp 200 body ∧
      redirect_uri = aq.redirect_uri ∧
      verify code_verifier aq.original_code_challenge = true ∧
      d = [("access_token",
             .tok (mintToken ctx.token_id "access" body.expires_in ctx.now)),
           ("refresh_token",
             .tok (mintToken ctx.token_id "refresh" JWT_REFRESH_TTL ctx.now)),
           ("token_type", .str "bearer"),
           ("expires_in", .num body.expires_in),
           ("scope", .str aq.original_scope)] ∧
      astore' = eraseA code astore ∧
      tstore' = insertA ctx.token_id
        { client_id := client_id
          access_token := body.access_token
          refresh_token := body.refresh_token
          scope := aq.original_scope } tstore := by
  unfold codeGrant at h
  split at h
  · simp at h
  · split at h
    · simp at h
    · rename_i aq hfind
      split at h
      · simp at h
      · rename_i hru
        split at h
        · simp at h
        · rename_i hpk
          split at h
          · simp at h
          · simp at h
          · rename_i upc status body hcode hup
            split at h
            · simp at h
            · rename_i hstatus
              rw [not_ne_iff] at hstatus
              subst hstatus
              rw [not_ne_iff] at hru
              have hpk' : verify code_verifier aq.original_code_challenge = true := by
                cases hb : verify code_verifier aq.original_code_challenge with
                | false => exact absurd hb hpk
                | true => rfl
              simp only [Prod.mk.injEq, Except.ok.injEq] at h
              exact ⟨aq, body, hfind, hup, hru, hpk',
                h.1.symm, h.2.1.symm, h.2.2.symm⟩

/-! ## Claim C1 -/

/-- C1: the authorization_code grant consumes `AUTH_REQUESTS[code]` by the
single check-and-remove `dict.pop` of line 310 (one atomic dict operation
under the interpreter, the system's sole replay defense), so a code yields
tokens at most once.  With the grant's required fields present: a code absent
from the store — unknown, expired-and-purged, or already consumed — fails
`invalid_grant` with the stores untouched; and after a successful exchange
the code is gone from the resulting store, so a second submission of the
same code fails `invalid_grant` for every context, verifier and token store. -/
theorem codeGrant_consumes_code_single_use
    (verify : String → String → Bool) (ctx : GrantCtx) (astore : AuthStore)
    (tstore : TokenStore) (client_id code redirect_uri code_verifier : String)
    (hc : code ≠ "") (hr : redirect_uri ≠ "") (hv : code_verifier ≠ "") :
    (findA code astore = none →
      codeGrant verify ctx astore tstore client_id code redirect_uri
        code_verifier =
      (.error (.oauth "invalid_grant" "Invalid or expired authorization request"),
       astore, tstore)) ∧
    (∀ d astore' tstore',
      codeGrant verify ctx astore tstore client_id code redirect_uri
        code_verifier = (.ok d, astore', tstore') →
      findA code astore' = none ∧
      ∀ (verify₂ : String → String → Bool) (ctx₂ : GrantCtx)
        (ts₂ : TokenStore) (cid₂ ruri₂ cv₂ : String),
        ruri₂ ≠ "" → cv₂ ≠ "" →
        codeGrant verify₂ ctx₂ astore' ts₂ cid₂ code ruri₂ cv₂ =
          (.error
            (.oauth "invalid_grant" "Invalid or expired authorization request"),
           astore', ts₂)) := by
  constructor
  · exact codeGrant_absent verify ctx astore tstore client_id code
      redirect_uri code_verifier hc hr hv
  · intro d astore' tstore' hok
    obtain ⟨aq, body, hfind, hup, hru, hpk, hd, ha, ht⟩ :=
      codeGrant_ok verify ctx astore tstore client_id code redirect_uri
        code_verifier d astore' tstore' hok
    subst ha
    refine ⟨findA_eraseA_self code astore, ?_⟩
    intro verify₂ ctx₂ ts₂ cid₂ ruri₂ cv₂ hr₂ hv₂
    exact codeGrant_absent verify₂ ctx₂ (eraseA code astore) ts₂ cid₂ code
      ruri₂ cv₂ hc hr₂ hv₂ (findA_eraseA_self code astore)

/-- The response dict of the demonstration code grant. -/
def demoGrantDict : JDict :=
  [("access_token", .tok (mintToken "tid-1" "access" 3600 500)),
   ("refresh_token", .tok (mintToken "tid-1" "refresh" JWT_REFRESH_TTL 500)),
   ("token_type", .str "bearer"), ("expires_in", .num 3600),
   ("scope", .str "user-read-email")]

/-- The token record created by the demonstration code grant. -/
def demoNewRecord : TokenRecord :=
  { client_id := "abc123"
    access_token := "spotify-access"
    refresh_token := "spotify-refresh"
    scope := "user-read-email" }

/-- Witness for C1: a concrete exchange succeeds once and the same code
resubmitted against the resulting store fails `invalid_grant`. -/
theorem codeGrant_consumes_code_single_use_witness :
    codeGrant acceptPkce demoCtx [("AID", demoAuthReq)] [] "abc123" "AID"
        "https://app.example/cb" "verifier" =
      (.ok demoGrantDict, [], [("tid-1", demoNewRecord)]) ∧
    codeGrant acceptPkce demoCtx [] [("tid-1", demoNewRecord)] "abc123" "AID"
        "https://app.example/cb" "verifier" =
      (.error (.oauth "invalid_grant" "Invalid or expired authorization request"),
       [], [("tid-1", demoNewRecord)]) := by
  constructor
  · decide
  · exact (codeGrant_consumes_code_single_use acceptPkce demoCtx []
      [("tid-1", demoNewRecord)] "abc123" "AID" "https://app.example/cb"
      "verifier" (by decide) (by decide) (by decide)).1 rfl

/-! ## Claim C2 -/

/-- C2: the authorization_code grant verifies the presented `code_verifier`
against the client's original `code_challenge` recorded at authorize time
(line 323 applies the PKCE primitive to `auth_req['original_code_challenge']`;
the broker's own upstream pair, `auth_req['code_verifier']`, plays no role in
the decision, which is stated here for every verification function): whenever
that verification fails, the call fails `pkce_failed`, the Token Record Store
is returned exactly unchanged (no `TokenRecord` is created) and no tokens are
issued. -/
theorem codeGrant_pkce_mismatch_fails_closed
    (verify : String → String → Bool) (ctx : GrantCtx) (astore : AuthStore)
    (tstore : TokenStore) (client_id code redirect_uri code_verifier : String)
    (aq : AuthRequest)
    (hc : code ≠ "") (hr : redirect_uri ≠ "") (hv : code_verifier ≠ "")
    (hfind : findA code astore = some aq)
    (hru : redirect_uri = aq.redirect_uri)
    (hpk : verify code_verifier aq.original_code_challenge = false) :
    codeGrant verify ctx astore tstore client_id code redirect_uri
      code_verifier =
    (.error (.oauth "pkce_failed" "code challenge mismatch"),
     eraseA code astore, tstore) := by
  unfold codeGrant
  rw [if_neg (by simp [hc, hr, hv])]
  split
  · rename_i hf
    rw [hfind] at hf
    cases hf
  · rename_i aq' hf
    rw [hfind] at hf
    injection hf with hf
    subst hf
    rw [if_neg (not_ne_iff.mpr hru), if_pos hpk]

/-- Witness for C2: a concrete grant whose verifier is rejected fails
`pkce_failed` and creates no token record. -/
theorem codeGrant_pkce_mismatch_fails_closed_witness :
    codeGrant rejectPkce demoCtx [("AID", demoAuthReq)] [] "abc123" "AID"
      "https://app.example/cb" "verifier" =
    (.error (.oauth "pkce_failed" "code challenge mismatch"),
     eraseA "AID" [("AID", demoAuthReq)], []) :=
  codeGrant_pkce_mismatch_fails_closed rejectPkce demoCtx
    [("AID", demoAuthReq)] [] "abc123" "AID" "https://app.example/cb"
    "verifier" demoAuthReq (by decide) (by decide) (by decide) (by decide)
    (by decide) rfl

/-! ## Refresh-grant helper lemmas -/

/-- `_decode_token` never alters the claims: a successful decode returns the
token's own claim set. -/
theorem decodeToken_some (j : Jwt) (t : String) (n : Nat)
    (c : List (String × CVal)) (h : decodeToken j t n = some c) :
    c = j.claims := by
  unfold decodeToken at h
  repeat split at h
  all_goals simp_all

/-- Inversion of a successful refresh_token grant: the token decoded, its
`token_id` resolved to a stored record owned by the caller, the upstream
refresh returned 200, and the response dict and rotated store are exactly as
built at lines 423-444. -/
theorem refreshGrant_ok (ctx : GrantCtx) (tstore : TokenStore)
    (client_id : String) (j : Jwt) (d : JDict) (tstore' : TokenStore)
    (h : refreshGrant ctx tstore client_id (.signed j) = (.ok d, tstore')) :
    ∃ tid stored body,
      decodeToken j "refresh" ctx.now = some j.claims ∧
      findA "token_id" j.claims = some (.str tid) ∧
      findA tid tstore = some stored ∧
      client_id = stored.client_id ∧
      ctx.upstream = .resp 200 body ∧
      d = [("access_token",
             .tok (mintToken ctx.token_id "access" body.expires_in ctx.now)),
           ("token_type", .str "bearer"),
           ("expires_in", .num body.expires_in),
           ("refresh_token",
             .tok (mintToken ctx.token_id "refresh" JWT_REFRESH_TTL ctx.now)),
           ("scope", .str stored.scope)] ∧
      tstore' = insertA ctx.token_id
        { client_id := client_id
          access_token := body.access_token
          refresh_token := body.refresh_token
          scope := stored.scope } (eraseA tid tstore) := by
  unfold refreshGrant at h
  split at h
  · simp at h
  · simp at h
  · rename_i j' heq
    injection heq with heq
    subst heq
    split at h
    · simp at h
    · rename_i token_data hdec
      have hcl := decodeToken_some j "refresh" ctx.now token_data hdec
      subst hcl
      split at h
      · simp at h
      · simp at h
      · rename_i tid htid
        split at h
        · simp at h
        · rename_i stored hstored
          split at h
          · simp at h
          · rename_i hcid
            rw [not_ne_iff] at hcid
            split at h
            · simp at h
            · rename_i status body hup
              split at h
              · simp at h
              · rename_i hstatus
                rw [not_ne_iff] at hstatus
                subst hstatus
                simp only [Prod.mk.injEq, Except.ok.injEq] at h
                exact ⟨tid, stored, body, hdec, htid, hstored, hcid, hup,
                  h.1.symm, h.2.symm⟩

/-- A refresh token whose `token_id` no longer exists in the Token Record
Store fails `invalid_grant` at the lookup step, store untouched. -/
theorem refreshGrant_lookup_missing (ctx : GrantCtx) (tstore : TokenStore)
    (client_id : String) (j : Jwt) (tid : String)
    (hdec : (decodeToken j "refresh" ctx.now).isSome)
    (htid : findA "token_id" j.claims = some (.str tid))
    (hmiss : findA tid tstore = none) :
    refreshGrant ctx tstore client_id (.signed j) =
      (.error (.oauth "invalid_grant" "Refresh token not found or expired"),
       tstore) := by
  obtain ⟨c, hc⟩ := Option.isSome_iff_exists.mp hdec
  have hcc := decodeToken_some j "refresh" ctx.now c hc
  subst hcc
  simp only [refreshGrant, hc, htid, hmiss]

/-- Every failing refresh-grant call leaves the Token Record Store exactly
as it was: the deletion and insertion of lines 430-436 only run after a 200
upstream response. -/
theorem refreshGrant_error_preserves (ctx : GrantCtx) (tstore : TokenStore)
    (client_id : String) (rt : RefreshTokenInput) (e : OErr)
    (ts' : TokenStore)
    (h : refreshGrant ctx tstore client_id rt = (.error e, ts')) :
    ts' = tstore := by
  unfold refreshGrant at h
  iterate 8 (all_goals (try split at h))
  all_goals simp_all

/-- Reaching the upstream exchange and receiving a non-200 response fails
`server_error` with the store untouched. -/
theorem refreshGrant_upstream_http_fail (ctx : GrantCtx) (tstore : TokenStore)
    (client_id : String) (j : Jwt) (tid : String) (stored : TokenRecord)
    (status : Nat) (body : UpstreamTokens)
    (hup : ctx.upstream = .resp status body) (hs : status ≠ 200)
    (hdec : (decodeToken j "refresh" ctx.now).isSome)
    (htid : findA "token_id" j.claims = some (.str tid))
    (hstored : findA tid tstore = some stored)
    (hcid : client_id = stored.client_id) :
    refreshGrant ctx tstore client_id (.signed j) =
      (.error (.oauth "server_error" "Spotify refresh token exchange failed"),
       tstore) := by
  obtain ⟨c, hc⟩ := Option.isSome_iff_exists.mp hdec
  have hcc := decodeToken_some j "refresh" ctx.now c hc
  subst hcc
  simp [refreshGrant, hc, htid, hstored, hcid, hup, hs]

/-- With all record checks passing and a 200 upstream response, the refresh
grant succeeds and rotates the record. -/
theorem refreshGrant_success_eval (ctx : GrantCtx) (tstore : TokenStore)
    (client_id : String) (j : Jwt) (tid : String) (stored : TokenRecord)
    (body : UpstreamTokens)
    (hup : ctx.upstream = .resp 200 body)
    (hdec : (decodeToken j "refresh" ctx.now).isSome)
    (htid : findA "token_id" j.claims = some (.str tid))
    (hstored : findA tid tstore = some stored)
    (hcid : client_id = stored.client_id) :
    refreshGrant ctx tstore client_id (.signed j) =
      (.ok [("access_token",
              .tok (mintToken ctx.token_id "access" body.expires_in ctx.now)),
            ("token_type", .str "bearer"),
            ("expires_in", .num body.expires_in),
            ("refresh_token",
              .tok (mintToken ctx.token_id "refresh" JWT_REFRESH_TTL ctx.now)),
            ("scope", .str stored.scope)],
       insertA ctx.token_id
         { client_id := client_id
           access_token := body.access_token
           refresh_token := body.refresh_token
           scope := stored.scope } (eraseA tid tstore)) := by
  obtain ⟨c, hc⟩ := Option.isSome_iff_exists.mp hdec
  have hcc := decodeToken_some j "refresh" ctx.now c hc
  subst hcc
  simp [refreshGrant, hc, htid, hstored, hcid, hup]

/-! ## Claim C3 -/

/-- C3: a refresh token accepted once invalidates itself.  A successful
refresh_token grant deletes the old `TokenRecord` (its `token_id` is gone
from the resulting store) and creates a record under the freshly drawn
`token_id` (hypothesis: the fresh draw differs from the old id), so
presenting the same refresh token again — at any later clock at which the
token still decodes — fails `invalid_grant` at the `token_id` lookup step,
for every caller. -/
theorem refreshGrant_rotation_invalidates_old_token
    (ctx : GrantCtx) (tstore : TokenStore) (client_id : String) (j : Jwt)
    (tid : String) (d : JDict) (tstore' : TokenStore)
    (htid : findA "token_id" j.claims = some (.str tid))
    (hok : refreshGrant ctx tstore client_id (.signed j) = (.ok d, tstore'))
    (hfresh : ctx.token_id ≠ tid) :
    findA tid tstore' = none ∧
    (∃ rec, findA ctx.token_id tstore' = some rec) ∧
    ∀ (ctx₂ : GrantCtx) (client_id₂ : String),
      (decodeToken j "refresh" ctx₂.now).isSome →
      refreshGrant ctx₂ tstore' client_id₂ (.signed j) =
        (.error (.oauth "invalid_grant" "Refresh token not found or expired"),
         tstore') := by
  obtain ⟨tid', stored, body, hdec, htid', hstored, hcid, hup, hd, ht⟩ :=
    refreshGrant_ok ctx tstore client_id j d tstore' hok
  have heq : tid' = tid := by
    rw [htid'] at htid
    injection htid with h1
    injection h1
  rw [heq] at htid' hstored ht
  subst ht
  have hgone : findA tid (insertA ctx.token_id
      { client_id := client_id
        access_token := body.access_token
        refresh_token := body.refresh_token
        scope := stored.scope } (eraseA tid tstore)) = none := by
    rw [findA_insertA_ne _ _ hfresh, findA_eraseA_ne _ hfresh,
      findA_eraseA_self]
  refine ⟨hgone, ⟨_, findA_insertA_self _ _ _⟩, ?_⟩
  intro ctx₂ client_id₂ hdec₂
  exact refreshGrant_lookup_missing ctx₂ _ client_id₂ j tid hdec₂ htid' hgone

/-- The old token record of the demonstration refresh flow. -/
def demoOldRecord : TokenRecord :=
  { client_id := "abc123"
    access_token := "old-upstream-access"
    refresh_token := "old-upstream-refresh"
    scope := "user-read-email" }

/-- The broker refresh token referring to the old record. -/
def demoRefreshJwt : Jwt := mintToken "old-tid" "refresh" JWT_REFRESH_TTL 100

/-- The response dict of the demonstration refresh grant. -/
def demoRefrDict : JDict :=
  [("access_token", .tok (mintToken "tid-1" "access" 3600 500)),
   ("token_type", .str "bearer"), ("expires_in", .num 3600),
   ("refresh_token", .tok (mintToken "tid-1" "refresh" JWT_REFRESH_TTL 500)),
   ("scope", .str "user-read-email")]

/-- Witness for C3: after a concrete successful refresh, resubmitting the
same refresh token fails `invalid_grant` at the lookup step. -/
theorem refreshGrant_rotation_invalidates_old_token_witness :
    refreshGrant demoCtx [("tid-1", demoNewRecord)] "abc123"
        (.signed demoRefreshJwt) =
      (.error (.oauth "invalid_grant" "Refresh token not found or expired"),
       [("tid-1", demoNewRecord)]) := by
  have h := refreshGrant_rotation_invalidates_old_token demoCtx
    [("old-tid", demoOldRecord)] "abc123" demoRefreshJwt "old-tid"
    demoRefrDict [("tid-1", demoNewRecord)] (by decide) (by decide)
    (by decide)
  exact h.2.2 demoCtx "abc123" (by decide)

/-! ## Claim C10 -/

/-- C10: when the upstream refresh call fails with a non-200 status, the
refresh grant fails `server_error` and the Token Record Store is returned
exactly unchanged — no record deleted, none created; moreover every failing
refresh-grant call of any kind preserves the store, and retrying the same
refresh token against the unchanged store with a 200 upstream response
succeeds — rotation happens only after a successful upstream response. -/
theorem refreshGrant_upstream_failure_no_rotation
    (ctx : GrantCtx) (tstore : TokenStore) (client_id : String) (j : Jwt)
    (tid : String) (stored : TokenRecord) (status : Nat)
    (body : UpstreamTokens)
    (hup : ctx.upstream = .resp status body) (hs : status ≠ 200)
    (hdec : (decodeToken j "refresh" ctx.now).isSome)
    (htid : findA "token_id" j.claims = some (.str tid))
    (hstored : findA tid tstore = some stored)
    (hcid : client_id = stored.client_id) :
    refreshGrant ctx tstore client_id (.signed j) =
      (.error (.oauth "server_error" "Spotify refresh token exchange failed"),
       tstore) ∧
    (∀ (rt : RefreshTokenInput) (e : OErr) (ts' : TokenStore),
      refreshGrant ctx tstore client_id rt = (.error e, ts') → ts' = tstore) ∧
    (∀ (ctx₂ : GrantCtx) (body₂ : UpstreamTokens),
      ctx₂.upstream = .resp 200 body₂ →
      (decodeToken j "refresh" ctx₂.now).isSome →
      ∃ d ts₂,
        refreshGrant ctx₂ tstore client_id (.signed j) = (.ok d, ts₂)) := by
  refine ⟨refreshGrant_upstream_http_fail ctx tstore client_id j tid stored
    status body hup hs hdec htid hstored hcid, ?_, ?_⟩
  · intro rt e ts' h
    exact refreshGrant_error_preserves ctx tstore client_id rt e ts' h
  · intro ctx₂ body₂ hup₂ hdec₂
    exact ⟨_, _, refreshGrant_success_eval ctx₂ tstore client_id j tid stored
      body₂ hup₂ hdec₂ htid hstored hcid⟩

/-- A failing upstream outcome: HTTP 500 from the Spotify token endpoint. -/
def demoFailCtx : GrantCtx :=
  { now := 500, upstream := .resp 500 demoUpstream, token_id := "tid-9" }

/-- Witness for C10: a concrete refresh call against a failing upstream
fails `server_error` and leaves the store unchanged. -/
theorem refreshGrant_upstream_failure_no_rotation_witness :
    refreshGrant demoFailCtx [("old-tid", demoOldRecord)] "abc123"
        (.signed demoRefreshJwt) =
      (.error (.oauth "server_error" "Spotify refresh token exchange failed"),
       [("old-tid", demoOldRecord)]) :=
  (refreshGrant_upstream_failure_no_rotation demoFailCtx
    [("old-tid", demoOldRecord)] "abc123" demoRefreshJwt "old-tid"
    demoOldRecord 500 demoUpstream rfl (by decide) (by decide) (by decide)
    (by decide) rfl).1

/-! ## Claim C7 -/

/-- C7: for every `callback(code, state = auth_id)` — a missing entry fails
`invalid_request` with the store untouched; an entry past its `expires_at`
is deleted and fails `invalid_request`; otherwise the upstream code is
recorded into the stored request (the only store change) and the response
redirects to the stored client `redirect_uri` with `code = auth_id`, plus
`state = original_state` exactly when a non-empty state was supplied at
authorize time (the authorize route defaults `state` to `""`, which Python
truthiness treats as not supplied).  No upstream exchange occurs: the
embedded callback takes no upstream outcome at all, the exchange being
deferred to the token endpoint. -/
theorem spotifyCallback_behaviour (now : Nat) (astore : AuthStore)
    (code state : String) :
    (findA state astore = none →
      spotifyCallback now astore code state =
        (.error (.oauth "invalid_request"
          "Invalid or expired authorization request"), astore)) ∧
    (∀ aq, findA state astore = some aq →
      (aq.expires_at < now →
        spotifyCallback now astore code state =
          (.error (.oauth "invalid_request"
            "Authorization request has expired"), eraseA state astore)) ∧
      (¬ aq.expires_at < now →
        spotifyCallback now astore code state =
          (.ok { base := aq.redirect_uri
                 params := ("code", state) ::
                   (if aq.original_state ≠ "" then
                     [("state", aq.original_state)] else []) },
           insertA state { aq with code := some code } astore))) := by
  refine ⟨?_, ?_⟩
  · intro hnone
    simp only [spotifyCallback, hnone]
  · intro aq hfind
    refine ⟨?_, ?_⟩
    · intro hexp
      simp only [spotifyCallback, hfind, if_pos hexp]
    · intro hexp
      simp only [spotifyCallback, hfind, if_neg hexp]

/-- Witness for C7: the demonstration request is live at time 150, so the
callback records the upstream code and redirects with both `code` and
`state` parameters. -/
theorem spotifyCallback_behaviour_witness :
    spotifyCallback 150 [("AID", { demoAuthReq with code := none })]
        "UPSTREAMCODE" "AID" =
      (.ok { base := "https://app.example/cb"
             params := [("code", "AID"), ("state", "xyz")] },
       insertA "AID" demoAuthReq
         [("AID", { demoAuthReq with code := none })]) := by
  have h := ((spotifyCallback_behaviour 150
    [("AID", { demoAuthReq with code := none })] "UPSTREAMCODE" "AID").2
    { demoAuthReq with code := none } (by decide)).2 (by decide)
  exact h

/-! ## Claim C9 -/

/-- C9: every internal token minted by the broker (the four mint sites at
lines 354-356 and 426-427 are the only ones reachable, each with payload
`{'token_id': tid}`) is a signed claim set holding exactly the claims
`token_id`, `iss`, `iat`, `exp` and `typ`, with `typ` "access" or "refresh"
per position; the only string values in the claim set are the freshly drawn
`token_id`, the issuer and the `typ` tag, so no operation embeds the
upstream access or refresh token in an issued internal token. -/
theorem minted_tokens_claim_shape
    (verify : String → String → Bool) (ctx : GrantCtx) (astore : AuthStore)
    (tstore : TokenStore)
    (client_id code redirect_uri code_verifier rclient_id : String)
    (rt : Jwt) :
    (∀ d astore' tstore',
      codeGrant verify ctx astore tstore client_id code redirect_uri
        code_verifier = (.ok d, astore', tstore') →
      ∃ body, ctx.upstream = .resp 200 body ∧
        findA "access_token" d =
          some (.tok (mintToken ctx.token_id "access" body.expires_in ctx.now)) ∧
        findA "refresh_token" d =
          some (.tok (mintToken ctx.token_id "refresh" JWT_REFRESH_TTL ctx.now))) ∧
    (∀ d tstore',
      refreshGrant ctx tstore rclient_id (.signed rt) = (.ok d, tstore') →
      ∃ body, ctx.upstream = .resp 200 body ∧
        findA "access_token" d =
          some (.tok (mintToken ctx.token_id "access" body.expires_in ctx.now)) ∧
        findA "refresh_token" d =
          some (.tok (mintToken ctx.token_id "refresh" JWT_REFRESH_TTL ctx.now))) ∧
    (∀ (tid typ : String) (ttl now : Nat),
      (mintToken tid typ ttl now).claims =
        [("token_id", CVal.str tid), ("iss", CVal.str JWT_ISSUER),
         ("iat", CVal.num now), ("exp", CVal.num (now + ttl)),
         ("typ", CVal.str typ)] ∧
      ∀ s : String,
        CVal.str s ∈ (mintToken tid typ ttl now).claims.map Prod.snd →
        s = tid ∨ s = JWT_ISSUER ∨ s = typ) := by
  refine ⟨?_, ?_, ?_⟩
  · intro d astore' tstore' hok
    obtain ⟨aq, body, hfind, hup, hru, hpk, hd, ha, ht⟩ :=
      codeGrant_ok verify ctx astore tstore client_id code redirect_uri
        code_verifier d astore' tstore' hok
    subst hd
    exact ⟨body, hup, by simp [findA], by simp [findA]⟩
  · intro d tstore' hok
    obtain ⟨tid, stored, body, hdec, htid, hstored, hcid, hup, hd, ht⟩ :=
      refreshGrant_ok ctx tstore rclient_id rt d tstore' hok
    subst hd
    exact ⟨body, hup, by simp [findA], by simp [findA]⟩
  · intro tid typ ttl now
    refine ⟨mintToken_claims tid typ ttl now, ?_⟩
    intro s hs
    simp [mintToken_claims] at hs
    tauto

/-- Witness for C9: the concrete successful code grant carries tokens whose
claim sets are exactly the five broker claims. -/
theorem minted_tokens_claim_shape_witness :
    findA "access_token" demoGrantDict =
      some (.tok (mintToken "tid-1" "access" 3600 500)) ∧
    findA "refresh_token" demoGrantDict =
      some (.tok (mintToken "tid-1" "refresh" JWT_REFRESH_TTL 500)) ∧
    (mintToken "tid-1" "access" 3600 500).claims =
      [("token_id", CVal.str "tid-1"), ("iss", CVal.str JWT_ISSUER),
       ("iat", CVal.num 500), ("exp", CVal.num 4100),
       ("typ", CVal.str "access")] := by
  have h := minted_tokens_claim_shape acceptPkce demoCtx [("AID", demoAuthReq)]
    [] "abc123" "AID" "https://app.example/cb" "verifier" "abc123"
    demoRefreshJwt
  obtain ⟨body, hup, ha, hr⟩ :=
    h.1 demoGrantDict [] [("tid-1", demoNewRecord)] (by decide)
  have hb : demoUpstream = body := by
    have hup' : UpstreamOutcome.resp 200 demoUpstream = .resp 200 body := hup
    injection hup' with h1 h2
  subst hb
  exact ⟨ha, hr, (h.2.2 "tid-1" "access" 3600 500).1⟩

/-! ## Endpoint inversion helpers -/

/-- `true` exactly on the `Except.ok` constructor. -/
def exceptIsOk {ε α : Type} : Except ε α → Bool
  | .ok _ => true
  | .error _ => false

/-- Inversion of a successful `authorize`: every validation passed and the
store gained exactly the new `AuthorizationRequest` under `auth_id`. -/
theorem authorize_ok (ctx : AuthorizeCtx) (clients : ClientStore)
    (astore : AuthStore)
    (response_type client_id redirect_uri scope state code_challenge
     code_challenge_method : String) (red : Redirect) (astore' : AuthStore)
    (h : authorize ctx clients astore response_type client_id redirect_uri
      scope state code_challenge code_challenge_method = (.ok red, astore')) :
    astore' = insertA ctx.auth_id
      { client_id := client_id
        redirect_uri := redirect_uri
        original_state := state
        original_code_challenge := code_challenge
        original_scope := pySetJoin (pyWords scope)
        expires_at := ctx.now + AUTH_REQUEST_TTL
        code_verifier := ctx.broker_code_verifier
        code := none } astore := by
  unfold authorize at h
  iterate 8 (all_goals (try split at h))
  all_goals simp_all

/-- Inversion of a successful `spotify_callback`: the entry was present and
live, and the store update records exactly the upstream code into it. -/
theorem spotifyCallback_ok (now : Nat) (astore : AuthStore)
    (code state : String) (red : Redirect) (astore' : AuthStore)
    (h : spotifyCallback now astore code state = (.ok red, astore')) :
    ∃ aq, findA state astore = some aq ∧ ¬ aq.expires_at < now ∧
      astore' = insertA state { aq with code := some code } astore ∧
      red = { base := aq.redirect_uri
              params := ("code", state) ::
                (if aq.original_state ≠ "" then
                  [("state", aq.original_state)] else []) } := by
  unfold spotifyCallback at h
  iterate 4 (all_goals (try split at h))
  all_goals simp_all

/-- Inversion of a successful `issue_token`: the call was dispatched to one
of the two grants, which succeeded. -/
theorem issueToken_ok (ctx : GrantCtx) (clients : ClientStore)
    (astore : AuthStore) (tstore : TokenStore)
    (verify : String → String → Bool)
    (grant_type client_id code redirect_uri code_verifier : String)
    (rt : RefreshTokenInput) (d : JDict) (astore' : AuthStore)
    (tstore' : TokenStore)
    (h : issueToken ctx clients astore tstore verify grant_type client_id
      code redirect_uri code_verifier rt = (.ok d, astore', tstore')) :
    (grant_type = "authorization_code" ∧
      codeGrant verify ctx astore tstore client_id code redirect_uri
        code_verifier = (.ok d, astore', tstore')) ∨
    (grant_type = "refresh_token" ∧ astore' = astore ∧
      ∃ j, rt = .signed j ∧
        refreshGrant ctx tstore client_id (.signed j) = (.ok d, tstore')) := by
  unfold issueToken at h
  split at h
  · simp at h
  · rename_i hsup
    split at h
    · simp at h
    · split at h
      · rename_i hgt
        exact Or.inl ⟨hgt, h⟩
      · rename_i hgt
        have hmem : grant_type ∈ GRANT_TYPES_SUPPORTED := not_not.mp hsup
        have hrt : grant_type = "refresh_token" := by
          simp [GRANT_TYPES_SUPPORTED] at hmem
          rcases hmem with h1 | h1
          · exact absurd h1 hgt
          · exact h1
        split at h
        rename_i r ts₂ hr
        simp only [Prod.mk.injEq] at h
        obtain ⟨h1, h2, h3⟩ := h
        subst h2
        cases rt with
        | missing =>
            rw [show refreshGrant ctx tstore client_id .missing =
              (.error (.oauth "invalid_request" "Missing refresh_token"),
               tstore) from rfl] at hr
            injection hr with hr1 hr2
            rw [← hr1] at h1
            cases h1
        | malformed =>
            rw [show refreshGrant ctx tstore client_id .malformed =
              (.error (.oauth "invalid_grant" "Invalid refresh_token format"),
               tstore) from rfl] at hr
            injection hr with hr1 hr2
            rw [← hr1] at h1
            cases h1
        | signed j =>
            refine Or.inr ⟨hrt, rfl, j, rfl, ?_⟩
            rw [hr, h1, h3]

/-! ## Claim C4 -/

/-- The keyword arguments the `/token` route handler passes to the service
(`auth_routes.py` lines 105-113): `db` plus the six form fields. -/
def tokenRouteKwargs : List String :=
  ["db", "grant_type", "client_id", "code", "redirect_uri", "code_verifier",
   "refresh_token"]

/-- The parameter names `issue_token` declares (`auth_services.py`
lines 267-274): the six form fields and no `db`. -/
def issueTokenParams : List String :=
  ["grant_type", "client_id", "code", "redirect_uri", "code_verifier",
   "refresh_token"]

/-- The `/token` route handler (`auth_routes.py` lines 95-113).  Python binds
the call's keyword arguments against the callee's parameter list before the
callee's body runs; an unexpected keyword raises `TypeError` -- an unhandled
exception surfacing as HTTP 500 through the generic handler of
`src/common/exceptions.py` -- with both stores untouched.  Only if every
keyword bound would the service run and its dict be serialized through the
declared `response_model=TokenResponse` (`tokenResponseBody`); a service
error would propagate as it is. -/
def tokenRoute (ctx : GrantCtx) (clients : ClientStore) (astore : AuthStore)
    (tstore : TokenStore) (verify : String → String → Bool)
    (grant_type client_id code redirect_uri code_verifier : String)
    (rt : RefreshTokenInput) : Except OErr JDict × AuthStore × TokenStore :=
  if tokenRouteKwargs.all (fun k => issueTokenParams.contains k) then
    match issueToken ctx clients astore tstore verify grant_type client_id
        code redirect_uri code_verifier rt with
    | (.ok d, astore', tstore') =>
        match tokenResponseBody d with
        | some body => (.ok body, astore', tstore')
        | none => (.error (.pyExn "ResponseValidationError"), astore', tstore')
    | (.error e, astore', tstore') => (.error e, astore', tstore')
  else
    (.error (.pyExn
      "TypeError: issue_token() got an unexpected keyword argument db"),
     astore, tstore)

/-- C4 (code defect): the `/token` route handler calls
`issue_token(db=db, grant_type=..., ...)` while the service declares no `db`
parameter, so every `/token` request raises `TypeError` (HTTP 500) before
the service body runs and leaves both stores untouched -- an HTTP 200 body
never exists, refuting the claimed 200 response; at the concrete failing
input the service-level grant by itself would have succeeded with the full
five-field dict (`access_token`, `refresh_token`, `token_type` "bearer",
`expires_in`, `scope`), so the 500 is purely the route's wiring slip. -/
theorem tokenRoute_type_error_no_success :
    (∀ (ctx : GrantCtx) (clients : ClientStore) (astore : AuthStore)
       (tstore : TokenStore) (verify : String → String → Bool)
       (grant_type client_id code redirect_uri code_verifier : String)
       (rt : RefreshTokenInput),
      tokenRoute ctx clients astore tstore verify grant_type client_id code
        redirect_uri code_verifier rt =
      (.error (.pyExn
        "TypeError: issue_token() got an unexpected keyword argument db"),
       astore, tstore)) ∧
    issueToken demoCtx demoClients [("AID", demoAuthReq)] [] acceptPkce
        "authorization_code" "abc123" "AID" "https://app.example/cb"
        "verifier" .missing =
      (.ok demoGrantDict, [], [("tid-1", demoNewRecord)]) ∧
    tokenRoute demoCtx demoClients [("AID", demoAuthReq)] [] acceptPkce
        "authorization_code" "abc123" "AID" "https://app.example/cb"
        "verifier" .missing =
      (.error (.pyExn
        "TypeError: issue_token() got an unexpected keyword argument db"),
       [("AID", demoAuthReq)], []) := by
  refine ⟨?_, by decide, by decide⟩
  intro ctx clients astore tstore verify grant_type client_id code
    redirect_uri code_verifier rt
  unfold tokenRoute
  rw [if_neg (by decide)]

/-! ## Claim C8 -/

/-- The authorization request stored when the demonstration client requests
the scope string "user-read-email user-read-email" (a duplicated scope):
CPython's `' '.join(set(scope.split()))` stores the single distinct scope. -/
def dupAuthReq : AuthRequest :=
  { client_id := "abc123"
    redirect_uri := "https://app.example/cb"
    original_state := "xyz"
    original_code_challenge := "CLIENTCHALLENGE"
    original_scope := "user-read-email"
    expires_at := 400
    code_verifier := "BV"
    code := some "UPSTREAMCODE" }

/-- C8 counterexample: a full authorize → callback → token pipeline whose
client requested the scope string "user-read-email user-read-email"; the
token response's scope field is "user-read-email" — the join of the
deduplicated scope set (order-independent here, the set has one element) —
which differs from the verbatim requested string, refuting the claim that
the response scope equals the scope string originally requested. -/
theorem tokenResponse_scope_not_verbatim_cx :
    (codeGrant acceptPkce demoCtx
      (spotifyCallback 150
        (authorize ⟨100, "AID2", "BV", "BC"⟩ demoClients [] "code" "abc123"
          "https://app.example/cb" "user-read-email user-read-email" "xyz"
          "CLIENTCHALLENGE" "S256").2
        "UPSTREAMCODE" "AID2").2
      [] "abc123" "AID2" "https://app.example/cb" "verifier").1 =
      .ok demoGrantDict ∧
    findA "scope" demoGrantDict = some (.str "user-read-email") ∧
    "user-read-email" ≠ "user-read-email user-read-email" := by
  decide

/-- C8 amended: the scope field of every successful authorization_code
token response equals the `original_scope` stored at authorize time, which
is `' '.join(set(scope.split()))` — the space-join of the deduplicated set
of requested (and validated) scope words — rather than the verbatim
requested string; the callback preserves it and the code grant returns
exactly it. -/
theorem tokenResponse_scope_deduplicated
    (actx : AuthorizeCtx) (clients : ClientStore) (astore : AuthStore)
    (response_type client_id redirect_uri scope state code_challenge
     code_challenge_method : String) (red : Redirect) (astore₁ : AuthStore)
    (hauth : authorize actx clients astore response_type client_id
      redirect_uri scope state code_challenge code_challenge_method =
      (.ok red, astore₁)) :
    (∃ aq, findA actx.auth_id astore₁ = some aq ∧
      aq.original_scope = pySetJoin (pyWords scope)) ∧
    (∀ now ucode red₂ astore₂,
      spotifyCallback now astore₁ ucode actx.auth_id = (.ok red₂, astore₂) →
      ∃ aq₂, findA actx.auth_id astore₂ = some aq₂ ∧
        aq₂.original_scope = pySetJoin (pyWords scope)) ∧
    (∀ (verify : String → String → Bool) (ctx : GrantCtx)
       (astore₀ : AuthStore) (tstore : TokenStore)
       (cid ruri cv : String) (d : JDict) (as' : AuthStore)
       (ts' : TokenStore) (aq : AuthRequest),
      findA actx.auth_id astore₀ = some aq →
      aq.original_scope = pySetJoin (pyWords scope) →
      codeGrant verify ctx astore₀ tstore cid actx.auth_id ruri cv =
        (.ok d, as', ts') →
      findA "scope" d = some (.str (pySetJoin (pyWords scope)))) := by
  have hst := authorize_ok actx clients astore response_type client_id
    redirect_uri scope state code_challenge code_challenge_method red astore₁
    hauth
  subst hst
  refine ⟨⟨_, findA_insertA_self _ _ _, rfl⟩, ?_, ?_⟩
  · intro now ucode red₂ astore₂ hcb
    obtain ⟨aq, hfind, hlive, hst₂, hred⟩ :=
      spotifyCallback_ok now _ ucode actx.auth_id red₂ astore₂ hcb
    rw [findA_insertA_self] at hfind
    injection hfind with hfind
    subst hst₂
    refine ⟨_, findA_insertA_self _ _ _, ?_⟩
    rw [← hfind]
  · intro verify ctx astore₀ tstore cid ruri cv d as' ts' aq hfind hsc hok
    obtain ⟨aq', body, hfind', hup, hru, hpk, hd, ha, ht⟩ :=
      codeGrant_ok verify ctx astore₀ tstore cid actx.auth_id ruri cv d as'
        ts' hok
    rw [hfind] at hfind'
    injection hfind' with hfind'
    subst hd
    rw [hfind'] at hsc
    simp [findA, hsc]

/-- Witness for C8 (amended): the concrete duplicated-scope authorize call
stores scope "user-read-email", and a later successful exchange returns it. -/
theorem tokenResponse_scope_deduplicated_witness :
    findA "scope" demoGrantDict =
      some (.str (pySetJoin (pyWords "user-read-email user-read-email"))) := by
  have h := tokenResponse_scope_deduplicated ⟨100, "AID2", "BV", "BC"⟩
    demoClients [] "code" "abc123" "https://app.example/cb"
    "user-read-email user-read-email" "xyz" "CLIENTCHALLENGE" "S256"
    { base := SPOTIFY_AUTH_URL
      params := [("client_id", SPOTIFY_CLIENT_ID), ("response_type", "code"),
                 ("redirect_uri", SPOTIFY_REDIRECT_URI),
                 ("scope", "user-read-email"), ("state", "AID2"),
                 ("code_challenge", "BC"),
                 ("code_challenge_method", "S256")] }
    [("AID2", { dupAuthReq with code := none })] (by decide)
  exact h.2.2 acceptPkce demoCtx [("AID2", dupAuthReq)] [] "abc123"
    "https://app.example/cb" "verifier" demoGrantDict []
    [("tid-1", demoNewRecord)] dupAuthReq (by decide) (by decide) (by decide)

/-! ## Claim C5 -/

/-- C5 (code defect): no call to `register_client` ever succeeds, so the
claimed success path (fresh `client_id`, `issued_at`, persisted client,
echoed secret-free record, lines 106-129) is unreachable.  Every payload
that passes the three reachable checks hits the `AttributeError` of line 90
(`ClientRegistrationRequest` declares no `token_endpoint_auth_method`
field), the registry is never written, and in particular the fully valid
demonstration payload crashes instead of registering. -/
theorem registerClient_never_succeeds :
    (∀ (clients : ClientStore) (payload : ClientRegistrationRequest),
      exceptIsOk (registerClient clients payload).1 = false ∧
      (registerClient clients payload).2 = clients) ∧
    registerClient [("abc123", demoClient)]
        { client_name := "Second App"
          redirect_uris := ["https://client.example/callback"]
          grant_types := ["authorization_code", "refresh_token"]
          response_types := ["code"] } =
      (.error (.pyExn
        "AttributeError: ClientRegistrationRequest has no field token_endpoint_auth_method"),
       [("abc123", demoClient)]) := by
  constructor
  · intro clients payload
    unfold registerClient
    iterate 3 (all_goals (try split))
    all_goals exact ⟨rfl, rfl⟩
  · decide

/-! ## Claim C6 -/

/-- C6 (code defect): the first three registration checks run in the claimed
order with the claimed error codes and never write the registry — empty
`redirect_uris` fails `invalid_client_metadata` (even when later checks
would also fail), an unsupported grant type fails `unsupported_grant_type`,
an unsupported response type fails `unsupported_response_type` — but the
fourth and fifth claimed checks (`token_endpoint_auth_method` and scope)
never run: every payload reaching line 90 raises `AttributeError` (HTTP
500) because `ClientRegistrationRequest` declares neither field, as the
last conjunct evaluates on a payload that the claim says should register
successfully. -/
theorem registerClient_validation_order_and_attr_error :
    registerClient []
        { client_name := "A"
          redirect_uris := []
          grant_types := ["implicit"]
          response_types := ["code"] } =
      (.error (.oauth "invalid_client_metadata"
        "Missing required field: redirect_uris"), []) ∧
    registerClient []
        { client_name := "A"
          redirect_uris := ["https://a.example/cb"]
          grant_types := ["implicit"]
          response_types := ["token"] } =
      (.error (.oauth "unsupported_grant_type"
        "Unsupported grant_type(s) requested: implicit"), []) ∧
    registerClient []
        { client_name := "A"
          redirect_uris := ["https://a.example/cb"]
          grant_types := ["authorization_code"]
          response_types := ["token"] } =
      (.error (.oauth "unsupported_response_type"
        "Unsupported response_type(s) requested: token"), []) ∧
    registerClient []
        { client_name := "A"
          redirect_uris := ["https://a.example/cb"]
          grant_types := ["authorization_code"]
          response_types := ["code"] } =
      (.error (.pyExn
        "AttributeError: ClientRegistrationRequest has no field token_endpoint_auth_method"),
       []) := by
  exact ⟨by decide, by decide, by decide, by decide⟩

end SpotifyBroker
